import Mathlib

/-!
Verification of the cb-server frontend's session store and job-submission
wizard against its specification.  The definitions below are a shallow
embedding of the JavaScript/React source:

* `AuthContext` (src/unnamed/part_001) — session store: `logout`.
* `JobWizard` / `StepParameters` (src/unnamed/part_006) — the wizard
  controller: step state, `handleNext` / `handlePrevious`, `handleSubmit`.
* `StepJobType.jsx`, `StepBasicInfo` (src/unnamed/part_005),
  `StepReview` (src/unnamed/part_003) — per-step gating of the forward
  button and of the submit button.
* `MoleculeParams.jsx` — the molecule parameter panel:
  `handleInputMethodChange`, `validateSequence`, `handleSubmit`,
  `handleCrosslinkChange`, `getSpeciesCrosslinkData`, the species select
  and the chain textareas.

JavaScript strings become `String`; a field that may be `null`/`undefined`
becomes `Option String` (`none` for both, which the source never
distinguishes); JS truthiness on such a field is `jsTruthy`
(`undefined`, `null` and `""` are falsy).  Asynchronous handlers become
pure transition functions taking the network outcome as an explicit
argument, and the UI is modelled as an event-step function in which an
event whose control is not rendered or is disabled leaves the state
unchanged.
-/

namespace CbServer

/-- JS truthiness of a `string | null | undefined` value: `undefined`,
`null` and the empty string are falsy. -/
def jsTruthy : Option String → Bool
  | none => false
  | some s => !s.isEmpty

/-- `a || b` on a `string | null | undefined` value with a string default,
as in `data.message || 'Failed to submit job'`. -/
def jsOrElse (a : Option String) (b : String) : String :=
  match a with
  | none => b
  | some s => if s.isEmpty then b else s

/-! ## Session store (`AuthContext`, src/unnamed/part_001) -/

/-- The session store's state: `currentUser` (the identity, a record with a
`username`) and the startup `loading` flag. -/
structure AuthState where
  currentUser : Option String
  loading : Bool
deriving DecidableEq, Repr

/-- Body of a logout response that axios resolved (HTTP 2xx):
`{status, message}`. -/
structure LogoutBody where
  status : Option String
  message : Option String
deriving DecidableEq, Repr

/-- Outcome of the `POST /api/auth/logout` request as seen by the `logout`
handler: either axios resolves with a 2xx body, or it rejects (non-2xx
HTTP status or transport failure), entering the `catch` branch. -/
inductive LogoutOutcome where
  | resolved (body : LogoutBody)
  | rejected
deriving DecidableEq, Repr

/-- Result shape `{success, message}` returned by the session store's
operations. -/
structure OpResult where
  success : Bool
  message : String
deriving DecidableEq, Repr

/-- `logout` from `AuthContext`: on a resolved request it clears
`currentUser` and returns success with the server's message (or the
default); in the `catch` branch it still clears `currentUser` and returns
`success: true` with the local-logout message. -/
def logout (st : AuthState) (o : LogoutOutcome) : AuthState × OpResult :=
  match o with
  | .resolved body =>
      ({ st with currentUser := none },
       { success := true, message := jsOrElse body.message "Successfully logged out" })
  | .rejected =>
      ({ st with currentUser := none },
       { success := true,
         message := "You have been logged out locally. There was an issue communicating with the server." })

/-! ## Molecule parameter panel (`MoleculeParams.jsx`) -/

/-- The molecule panel's slice of `formData.parameters`.  Fields absent
from the JS object are `none`; `enableCrosslinks` is only ever read
through truthiness, so `undefined` and `false` coincide. -/
structure Params where
  inputMethod : Option String := none
  species : Option String := none
  chainA : Option String := none
  chainB : Option String := none
  chainC : Option String := none
  enableCrosslinks : Bool := false
  nTerminalType : Option String := none
  cTerminalType : Option String := none
  nTerminalPosition : Option String := none
  cTerminalPosition : Option String := none
deriving DecidableEq, Repr

/-- The panel's local `inputMethod` state, initialised and kept in sync as
`formData.inputMethod || 'species'`. -/
def effInputMethod (p : Params) : String :=
  match p.inputMethod with
  | none => "species"
  | some s => if s.isEmpty then "species" else s

/-- `handleInputMethodChange`: writes the new method and disables and
resets every crosslink field; switching to `custom` nulls `species`,
switching to `species` nulls the three chains. -/
def handleInputMethodChange (value : String) (p : Params) : Params :=
  { p with
    inputMethod := some value
    enableCrosslinks := false
    nTerminalType := some "NONE"
    cTerminalType := some "NONE"
    nTerminalPosition := none
    cTerminalPosition := none
    species := if value == "custom" then none else p.species
    chainA := if value == "species" then none else p.chainA
    chainB := if value == "species" then none else p.chainB
    chainC := if value == "species" then none else p.chainC }

/-- The species `<select>`'s `onChange`:
`onChange({ ...formData, species: e.target.value })`. -/
def speciesSelectChange (value : String) (p : Params) : Params :=
  { p with species := some value }

/-- The character class of the validation regex
`/^[ABCDEFGHIKLMNOPQRSTUVWXYZ-]+$/`. -/
def aminoAlphabet : List Char := "ABCDEFGHIKLMNOPQRSTUVWXYZ-".toList

/-- `validateSequence`: falsy (missing or empty) sequences fail; the
length must lie in `[950, 1150]`; every character must come from
`aminoAlphabet` (the `+` of the regex is subsumed by the length bound). -/
def validateSequence (sequence : Option String) : Bool :=
  match sequence with
  | none => false
  | some s =>
      if s.isEmpty then false
      else if s.length < 950 || s.length > 1150 then false
      else s.data.all (fun c => aminoAlphabet.contains c)

/-- Names the three custom chains, iterated in order `A`, `B`, `C` by the
panel's `handleSubmit`. -/
inductive ChainId where
  | A | B | C
deriving DecidableEq, Repr

def getChain (p : Params) : ChainId → Option String
  | .A => p.chainA
  | .B => p.chainB
  | .C => p.chainC

def chainName : ChainId → String
  | .A => "chainA"
  | .B => "chainB"
  | .C => "chainC"

/-- `e.target.value.toUpperCase()`, modelled character by character
(`Char.toUpper` maps the lowercase letters the panel's inputs use). -/
def jsToUpperCase (s : String) : String :=
  String.mk (s.data.map Char.toUpper)

/-- A chain textarea's `onChange`:
`onChange({ ...formData, [chain]: e.target.value.toUpperCase() })`. -/
def chainTextareaChange (c : ChainId) (value : String) (p : Params) : Params :=
  match c with
  | .A => { p with chainA := some (jsToUpperCase value) }
  | .B => { p with chainB := some (jsToUpperCase value) }
  | .C => { p with chainC := some (jsToUpperCase value) }

/-- Outcome of the panel's `handleSubmit`: either `setError(msg); return`
or `setError(null); onNext()`. -/
inductive PanelSubmit where
  | err (msg : String)
  | next
deriving DecidableEq, Repr

/-- The error message produced for an invalid chain. -/
def chainErrorMsg (c : ChainId) : String :=
  "Invalid sequence for " ++ chainName c ++
    ". Length must be between 950-1150 and contain only valid amino acids."

/-- The `for (const chain of sequences)` loop of the panel's
`handleSubmit`: the first invalid chain (in order A, B, C) yields an
error. -/
def firstInvalidChain (p : Params) : Option ChainId :=
  if !validateSequence p.chainA then some .A
  else if !validateSequence p.chainB then some .B
  else if !validateSequence p.chainC then some .C
  else none

/-- The crosslink section of the panel's `handleSubmit`: when crosslinks
are enabled, a terminal type other than `'NONE'` demands a truthy
position. -/
def crosslinkSubmitCheck (p : Params) : PanelSubmit :=
  if p.enableCrosslinks then
    if p.nTerminalType ≠ some "NONE" && !jsTruthy p.nTerminalPosition then
      .err "Please select N-terminal position"
    else if p.cTerminalType ≠ some "NONE" && !jsTruthy p.cTerminalPosition then
      .err "Please select C-terminal position"
    else .next
  else .next

/-- `MoleculeParams.handleSubmit`, the validation run at "Next": in
`species` mode a species must be truthy, in `custom` mode each chain must
pass `validateSequence`; then the crosslink check runs; otherwise
`onNext()` fires. -/
def moleculeHandleSubmit (p : Params) : PanelSubmit :=
  if effInputMethod p == "species" then
    if !jsTruthy p.species then .err "Please select a species"
    else crosslinkSubmitCheck p
  else
    match firstInvalidChain p with
    | some c => .err (chainErrorMsg c)
    | none => crosslinkSubmitCheck p

/-- `handleCrosslinkChange(terminal, type, position = null)`: writes the
terminal's type, and always writes the terminal's position (both call
sites pass either the default `null` or a selected value, so the
`position !== undefined` test is always true). -/
def handleCrosslinkChange (terminal : String) (type_ : String)
    (position : Option String) (p : Params) : Params :=
  if terminal == "n" then
    { p with nTerminalType := some type_, nTerminalPosition := position }
  else
    { p with cTerminalType := some type_, cTerminalPosition := position }

/-- The enable-crosslinks checkbox `onChange`: sets the flag and resets
all four crosslink fields. -/
def enableCrosslinksChange (checked : Bool) (p : Params) : Params :=
  { p with
    enableCrosslinks := checked
    nTerminalType := some "NONE"
    cTerminalType := some "NONE"
    nTerminalPosition := none
    cTerminalPosition := none }

/-- One row of the crosslink reference table fetched from
`/api/jobs/crosslinks-data`. -/
structure CrosslinkEntry where
  species : String
  resTerminal : String
  type_ : String
  position : Option String
deriving DecidableEq, Repr

/-- `processTerminalData` inside `getSpeciesCrosslinkData`: deduplicated
types, and per type the deduplicated non-null positions. -/
def processTerminalData (data : List CrosslinkEntry) :
    List String × (String → List String) :=
  let types := (data.map (·.type_)).eraseDups
  (types, fun t =>
    ((data.filter (·.type_ == t)).filterMap (·.position)).eraseDups)

/-- `getSpeciesCrosslinkData`: `null` when the reference table is absent
or the species falsy; otherwise the per-terminal types/positions for the
rows matching the species and the `LYS-N` / `LYS-C` terminals. -/
def getSpeciesCrosslinkData (crosslinkData : Option (List CrosslinkEntry))
    (species : Option String) :
    Option ((List String × (String → List String)) ×
            (List String × (String → List String))) :=
  match crosslinkData, species with
  | none, _ => none
  | some _, none => none
  | some table, some sp =>
      if sp.isEmpty then none
      else
        let speciesData := table.filter (·.species == sp)
        let nTerminalData := speciesData.filter (·.resTerminal == "LYS-N")
        let cTerminalData := speciesData.filter (·.resTerminal == "LYS-C")
        some (processTerminalData nTerminalData, processTerminalData cTerminalData)

/-! ## Job wizard controller (`JobWizard`, src/unnamed/part_006) -/

/-- The four job types offered by `StepJobType.jsx`. -/
inductive JobType where
  | molecule | standardFibril | mixedFibril | reducedFibril
deriving DecidableEq, Repr

/-- The wizard's `formData` state:
`{ jobName: '', description: '', parameters: {} }`. -/
structure FormData where
  jobName : String := ""
  description : String := ""
  parameters : Params := {}
deriving DecidableEq, Repr

/-- Parsed JSON body of a `/jobs/submit` response; absent keys are
`none`. -/
structure ResponseBody where
  status : Option String := none
  message : Option String := none
  jobId : Option String := none
deriving DecidableEq, Repr

/-- An HTTP response as `fetch` delivers it: the `ok` flag (HTTP status in
the 2xx range) and the decoded JSON body. -/
structure HttpResponse where
  ok : Bool
  body : ResponseBody
deriving DecidableEq, Repr

/-- Outcome of the submission round-trip: a response whose body decoded,
or a thrown transport/parse error with its `err.message`. -/
inductive SubmitOutcome where
  | response (r : HttpResponse)
  | transportError (msg : String)
deriving DecidableEq, Repr

/-- The payload `JSON.stringify({ job_type: jobType, ...formData })` sent
to `POST /jobs/submit`. -/
structure SubmitPayload where
  jobType : Option JobType
  jobName : String
  description : String
  parameters : Params
deriving DecidableEq, Repr

/-- The wizard controller's state.  `wizardError` is `JobWizard`'s `error`
state; `panelError` is `MoleculeParams`' local `error` state while that
panel is mounted (the reference-data fetch is modelled as already
resolved successfully); `navigatedTo` records an assignment to
`window.location.href`. -/
structure WizardState where
  currentStep : Nat := 0
  jobType : Option JobType := none
  formData : FormData := {}
  wizardError : Option String := none
  isSubmitting : Bool := false
  panelError : Option String := none
  navigatedTo : Option String := none
deriving DecidableEq, Repr

/-- The wizard's initial state: `step=0`, `jobType=null`, empty form. -/
def initWizard : WizardState := {}

/-- `handleNext`: `setCurrentStep(prev => Math.min(prev + 1, 3))`. -/
def handleNext (s : WizardState) : WizardState :=
  { s with currentStep := Nat.min (s.currentStep + 1) 3 }

/-- `handlePrevious`: `setCurrentStep(prev => Math.max(prev - 1, 0))`
(truncated subtraction on `Nat`). -/
def handlePrevious (s : WizardState) : WizardState :=
  { s with currentStep := s.currentStep - 1 }

/-- Remounting effect of arriving at the Parameters step: the freshly
mounted `MoleculeParams` starts with `error = null`. -/
def enterStep (s : WizardState) : WizardState :=
  if s.currentStep = 2 then { s with panelError := none } else s

/-- JS template-literal interpolation of a possibly-absent value, as in
```/jobs/status/${data.job_id}` `` (an `undefined` id prints as the
string `undefined`). -/
def jsInterp : Option String → String
  | none => "undefined"
  | some s => s

/-- The navigation target built from the response body's `job_id`. -/
def statusUrl (jobId : Option String) : String :=
  "/jobs/status/" ++ jsInterp jobId

/-- The serialized submission payload. -/
def submitPayload (s : WizardState) : SubmitPayload :=
  { jobType := s.jobType, jobName := s.formData.jobName,
    description := s.formData.description, parameters := s.formData.parameters }

/-- First half of `JobWizard.handleSubmit`, up to the suspension point:
`setIsSubmitting(true); setError(null)` and the single `fetch` to
`/jobs/submit`. -/
def handleSubmitStart (s : WizardState) : WizardState × List SubmitPayload :=
  ({ s with isSubmitting := true, wizardError := none }, [submitPayload s])

/-- Second half of `JobWizard.handleSubmit`: on `!response.ok` it throws
`data.message || 'Failed to submit job'`, caught by
`setError(err.message)`; on an ok response it navigates to the status URL;
a transport/parse error lands in the same `catch`; the `finally` always
clears `isSubmitting`. -/
def handleSubmitResolve (s : WizardState) (o : SubmitOutcome) : WizardState :=
  match o with
  | .transportError msg =>
      { s with wizardError := some msg, isSubmitting := false }
  | .response r =>
      if r.ok then
        { s with navigatedTo := some (statusUrl r.body.jobId), isSubmitting := false }
      else
        { s with wizardError := some (jsOrElse r.body.message "Failed to submit job"),
                 isSubmitting := false }

/-- The Review step's submit button is disabled exactly while a submission
is in flight (`disabled={isSubmitting}`). -/
def submitButtonDisabled (s : WizardState) : Bool := s.isSubmitting

/-- The Review step's submit button label:
`{isSubmitting ? 'Submitting...' : 'Submit Job'}`. -/
def submitButtonLabel (s : WizardState) : String :=
  if s.isSubmitting then "Submitting..." else "Submit Job"

/-- UI events the wizard can receive: user interactions on rendered,
enabled controls, plus completion of an in-flight submission. -/
inductive WizardEvent where
  | selectType (t : JobType)
  | next
  | previous
  | setJobName (v : String)
  | setDescription (v : String)
  | setInputMethod (v : String)
  | setSpecies (v : String)
  | setChain (c : ChainId) (v : String)
  | setEnableCrosslinks (b : Bool)
  | setCrosslink (terminal : String) (ty : String) (pos : Option String)
  | submitClick
  | submitResolve (o : SubmitOutcome)

/-- The molecule panel is showing its interactive form (not the
error-only rendering that replaces it once its local `error` is set). -/
def moleculeInteractive (s : WizardState) : Bool :=
  s.currentStep == 2 && s.jobType == some JobType.molecule && s.panelError.isNone

/-- Routes a parameter-panel update through `StepParameters`'
`onChange: (params) => onChange({ ...formData, parameters: params })`. -/
def updateParams (s : WizardState) (f : Params → Params) : WizardState :=
  { s with formData := { s.formData with parameters := f s.formData.parameters } }

/-- One step of the wizard: applies an event to the state and returns the
network calls it issued.  An event whose control is not rendered at the
current step, or is disabled, leaves the state unchanged.  `ref` is the
crosslink reference table held by the mounted molecule panel. -/
def applyEvent (ref : Option (List CrosslinkEntry)) (s : WizardState)
    (e : WizardEvent) : WizardState × List SubmitPayload :=
  match e with
  | .selectType t =>
      if s.currentStep = 0 then ({ s with jobType := some t }, []) else (s, [])
  | .next =>
      if s.currentStep = 0 then
        if s.jobType.isSome then (enterStep (handleNext s), []) else (s, [])
      else if s.currentStep = 1 then
        if s.formData.jobName.isEmpty then (s, [])
        else (enterStep (handleNext s), [])
      else if s.currentStep = 2 then
        match s.jobType with
        | some JobType.molecule =>
            if s.panelError.isSome then (s, [])
            else
              match moleculeHandleSubmit s.formData.parameters with
              | .err m => ({ s with panelError := some m }, [])
              | .next => (enterStep (handleNext { s with panelError := none }), [])
        | some _ => (enterStep (handleNext s), [])
        | none => (s, [])
      else (s, [])
  | .previous =>
      if s.currentStep = 1 then (enterStep (handlePrevious s), [])
      else if s.currentStep = 2 then
        match s.jobType with
        | some JobType.molecule =>
            if s.panelError.isSome then (s, [])
            else (enterStep (handlePrevious s), [])
        | some _ => (enterStep (handlePrevious s), [])
        | none => (s, [])
      else if s.currentStep = 3 then (enterStep (handlePrevious s), [])
      else (s, [])
  | .setJobName v =>
      if s.currentStep = 1 then
        ({ s with formData := { s.formData with jobName := v } }, [])
      else (s, [])
  | .setDescription v =>
      if s.currentStep = 1 then
        ({ s with formData := { s.formData with description := v } }, [])
      else (s, [])
  | .setInputMethod v =>
      if moleculeInteractive s && (v == "species" || v == "custom") then
        (updateParams s (handleInputMethodChange v), [])
      else (s, [])
  | .setSpecies v =>
      if moleculeInteractive s && effInputMethod s.formData.parameters == "species" then
        (updateParams s (speciesSelectChange v), [])
      else (s, [])
  | .setChain c v =>
      if moleculeInteractive s && effInputMethod s.formData.parameters != "species" then
        (updateParams s (chainTextareaChange c v), [])
      else (s, [])
  | .setEnableCrosslinks b =>
      if moleculeInteractive s && effInputMethod s.formData.parameters == "species"
          && jsTruthy s.formData.parameters.species then
        (updateParams s (enableCrosslinksChange b), [])
      else (s, [])
  | .setCrosslink terminal ty pos =>
      if moleculeInteractive s && effInputMethod s.formData.parameters == "species"
          && s.formData.parameters.enableCrosslinks
          && jsTruthy s.formData.parameters.species
          && (getSpeciesCrosslinkData ref s.formData.parameters.species).isSome
          && (terminal == "n" || terminal == "c") then
        (updateParams s (handleCrosslinkChange terminal ty pos), [])
      else (s, [])
  | .submitClick =>
      if s.currentStep = 3 && !s.isSubmitting then handleSubmitStart s
      else (s, [])
  | .submitResolve o =>
      if s.isSubmitting then (handleSubmitResolve s o, []) else (s, [])

/-- Runs a sequence of events, accumulating the network calls issued. -/
def runEvents (ref : Option (List CrosslinkEntry)) (s : WizardState) :
    List WizardEvent → WizardState × List SubmitPayload
  | [] => (s, [])
  | e :: es =>
      let r1 := applyEvent ref s e
      let r2 := runEvents ref r1.1 es
      (r2.1, r1.2 ++ r2.2)

/-- The wizard states reachable from the initial mount. -/
inductive Reachable (ref : Option (List CrosslinkEntry)) : WizardState → Prop where
  | init : Reachable ref initWizard
  | step {s : WizardState} (e : WizardEvent) :
      Reachable ref s → Reachable ref (applyEvent ref s e).1

def PanelSubmit.isNext : PanelSubmit → Bool
  | .next => true
  | .err _ => false

/-- The per-step validation predicate of spec §4.3: job type chosen at
`SelectType`, non-empty `jobName` at `BasicInfo`, the active parameter
panel's own validation at `Parameters` (only the molecule panel validates;
the fibril panels accept anything). -/
def stepValidation (s : WizardState) : Bool :=
  if s.currentStep = 0 then s.jobType.isSome
  else if s.currentStep = 1 then !s.formData.jobName.isEmpty
  else if s.currentStep = 2 then
    match s.jobType with
    | some JobType.molecule => (moleculeHandleSubmit s.formData.parameters).isNext
    | some _ => true
    | none => false
  else false

/-- A forward-transition attempt is possible: a Next/Continue control is
rendered at the current step (at steps 0 and 1 the button is always
rendered, merely disabled when validation fails, and a click on the
disabled button is a failed attempt; at step 2 the molecule panel renders
no buttons at all once its local error is set, and no panel exists
without a job type; the Review step has no forward control). -/
def nextAttemptable (s : WizardState) : Bool :=
  if s.currentStep = 0 then true
  else if s.currentStep = 1 then true
  else if s.currentStep = 2 then
    match s.jobType with
    | some JobType.molecule => s.panelError.isNone
    | some _ => true
    | none => false
  else false

/-- A submission outcome the wizard's `catch` treats as a failure: a
thrown transport/parse error, or a response with `ok = false`. -/
def SubmitOutcome.isFailure : SubmitOutcome → Bool
  | .transportError _ => true
  | .response r => !r.ok

/-- The message the wizard surfaces for a failed submission: the thrown
error's message, i.e. `data.message || 'Failed to submit job'` for a
non-ok response. -/
def failureMessage : SubmitOutcome → String
  | .transportError m => m
  | .response r => jsOrElse r.body.message "Failed to submit job"

/-- The control for a field-editing event is rendered and enabled in
state `s` (mirrors the guards of `applyEvent` for the editing events;
every other event is not a field edit). -/
def editControlAt (ref : Option (List CrosslinkEntry)) (s : WizardState) :
    WizardEvent → Bool
  | .setJobName _ => s.currentStep == 1
  | .setDescription _ => s.currentStep == 1
  | .setInputMethod v =>
      moleculeInteractive s && (v == "species" || v == "custom")
  | .setSpecies _ =>
      moleculeInteractive s && effInputMethod s.formData.parameters == "species"
  | .setChain _ _ =>
      moleculeInteractive s && effInputMethod s.formData.parameters != "species"
  | .setEnableCrosslinks _ =>
      moleculeInteractive s && effInputMethod s.formData.parameters == "species"
        && jsTruthy s.formData.parameters.species
  | .setCrosslink terminal _ _ =>
      moleculeInteractive s && effInputMethod s.formData.parameters == "species"
        && s.formData.parameters.enableCrosslinks
        && jsTruthy s.formData.parameters.species
        && (getSpeciesCrosslinkData ref s.formData.parameters.species).isSome
        && (terminal == "n" || terminal == "c")
  | _ => false

/-- The invariant maintained by the wizard controller: the step index
stays in `[0, 3]`, a job type is chosen in every state past `SelectType`,
and the job name is non-empty in every state past `BasicInfo`. -/
def WizardInv (s : WizardState) : Prop :=
  s.currentStep ≤ 3 ∧
  (1 ≤ s.currentStep → s.jobType.isSome = true) ∧
  (2 ≤ s.currentStep → s.formData.jobName.isEmpty = false)

/-! ### Concrete inputs used by witnesses and counterexamples -/

/-- A 900-character chain (spec §8, Scenario B). -/
def chain900 : String := String.mk (List.replicate 900 'A')

/-- A 1000-character all-alanine chain, valid for `validateSequence`. -/
def chain1000 : String := String.mk (List.replicate 1000 'A')

/-- Molecule parameters in custom mode whose first chain has 900
characters. -/
def scenarioBParams : Params :=
  { inputMethod := some "custom", chainA := some chain900,
    chainB := some chain900, chainC := some chain900 }

/-- The wizard at the Parameters step of a molecule job with a
900-character custom chain (spec §8, Scenario B). -/
def scenarioBState : WizardState :=
  { currentStep := 2, jobType := some JobType.molecule,
    formData := { jobName := "test", description := "", parameters := scenarioBParams } }

/-- Molecule parameters in custom mode with three valid 1000-character
chains. -/
def validCustomParams : Params :=
  { inputMethod := some "custom", chainA := some chain1000,
    chainB := some chain1000, chainC := some chain1000 }

/-- Molecule parameters in species mode with a non-`NONE` N-terminal
crosslink selection. -/
def crosslinkedParams : Params :=
  { inputMethod := some "species", species := some "human",
    enableCrosslinks := true,
    nTerminalType := some "HLKNL", cTerminalType := some "NONE",
    nTerminalPosition := some "9.C", cTerminalPosition := none }

/-- The wizard at the molecule Parameters step with the crosslinked
selection of `crosslinkedParams`. -/
def crosslinkedState : WizardState :=
  { currentStep := 2, jobType := some JobType.molecule,
    formData := { jobName := "job", description := "", parameters := crosslinkedParams } }

/-- The wizard at the Review step of a standard-fibril job (spec §8,
Scenario C's shape). -/
def reviewState : WizardState :=
  { currentStep := 3, jobType := some JobType.standardFibril,
    formData := { jobName := "Run1", description := "", parameters := {} } }

/-- An HTTP 200 response whose body reports a business-rule failure:
`{status: "error", message}` with no `job_id`. -/
def businessErrorResponse : HttpResponse :=
  { ok := true,
    body := { status := some "error", message := some "Quota exceeded", jobId := none } }

/-- The state reached from the initial wizard by selecting the molecule
job type and clicking Continue: the BasicInfo step of a molecule job. -/
def wState1 : WizardState :=
  (applyEvent none (applyEvent none initWizard (.selectType .molecule)).1 .next).1

/-! ## Theorems -/

/-- C5: for every outcome of the logout request (server success,
server-reported error body, or a rejected/failed request), `logout`
clears the local identity, and in every case — the rejected/transport
case included — it reports success to the caller. -/
theorem logout_clears_identity_and_fails_open (st : AuthState) (o : LogoutOutcome) :
    (logout st o).1.currentUser = none ∧ (logout st o).2.success = true := by
  cases o <;> exact ⟨rfl, rfl⟩

/-- C10: switching the molecule panel's input method discards the other
method's data: switching to `custom` nulls `species`, switching to
`species` nulls the three chains, both directions disable crosslinks, and
a round trip through the other method loses the deselected method's
inputs. -/
theorem inputMethod_switch_discards_other_method (p : Params) :
    (handleInputMethodChange "custom" p).species = none ∧
    (handleInputMethodChange "species" p).chainA = none ∧
    (handleInputMethodChange "species" p).chainB = none ∧
    (handleInputMethodChange "species" p).chainC = none ∧
    (handleInputMethodChange "custom" p).enableCrosslinks = false ∧
    (handleInputMethodChange "species" p).enableCrosslinks = false ∧
    (handleInputMethodChange "species" (handleInputMethodChange "custom" p)).species = none ∧
    (handleInputMethodChange "custom" (handleInputMethodChange "species" p)).chainA = none ∧
    (handleInputMethodChange "custom" (handleInputMethodChange "species" p)).chainB = none ∧
    (handleInputMethodChange "custom" (handleInputMethodChange "species" p)).chainC = none :=
  ⟨rfl, rfl, rfl, rfl, rfl, rfl, rfl, rfl, rfl, rfl⟩

/-- C2 counterexample: in a wizard state at the molecule Parameters step
whose N-terminal crosslink selection is non-`NONE`, changing the species
through the species select leaves every crosslink field untouched — the
claimed reset does not happen. -/
theorem species_change_keeps_crosslinks_cex :
    ((applyEvent (some []) crosslinkedState (.setSpecies "rat")).1.formData.parameters.species
        = some "rat") ∧
    ((applyEvent (some []) crosslinkedState (.setSpecies "rat")).1.formData.parameters.nTerminalType
        = some "HLKNL") ∧
    ((applyEvent (some []) crosslinkedState (.setSpecies "rat")).1.formData.parameters.nTerminalPosition
        = some "9.C") ∧
    ((applyEvent (some []) crosslinkedState (.setSpecies "rat")).1.formData.parameters.enableCrosslinks
        = true) ∧
    crosslinkedParams.nTerminalType ≠ some "NONE" := by
  refine ⟨rfl, rfl, rfl, rfl, ?_⟩
  decide

/-- C2 amended: changing `inputMethod` resets all crosslink fields
(`nTerminalType`, `cTerminalType` to `NONE`, positions to null, crosslinks
disabled), but changing `species` only updates the species field and
preserves every crosslink field. -/
theorem crosslink_reset_on_method_change_only (p : Params) (v : String) :
    (handleInputMethodChange v p).nTerminalType = some "NONE" ∧
    (handleInputMethodChange v p).cTerminalType = some "NONE" ∧
    (handleInputMethodChange v p).nTerminalPosition = none ∧
    (handleInputMethodChange v p).cTerminalPosition = none ∧
    (handleInputMethodChange v p).enableCrosslinks = false ∧
    (speciesSelectChange v p).species = some v ∧
    (speciesSelectChange v p).nTerminalType = p.nTerminalType ∧
    (speciesSelectChange v p).cTerminalType = p.cTerminalType ∧
    (speciesSelectChange v p).nTerminalPosition = p.nTerminalPosition ∧
    (speciesSelectChange v p).cTerminalPosition = p.cTerminalPosition ∧
    (speciesSelectChange v p).enableCrosslinks = p.enableCrosslinks :=
  ⟨rfl, rfl, rfl, rfl, rfl, rfl, rfl, rfl, rfl, rfl, rfl⟩

/-- C1 counterexample: submitting from the Review step and receiving an
HTTP 200 response whose body is `{status: "error", message}` makes the
wizard navigate to the job-status URL (built from the absent `job_id`)
and surface no error message. -/
theorem submit_200_error_navigates_cex :
    ((runEvents none reviewState
        [.submitClick, .submitResolve (.response businessErrorResponse)]).1.navigatedTo
      = some "/jobs/status/undefined") ∧
    ((runEvents none reviewState
        [.submitClick, .submitResolve (.response businessErrorResponse)]).1.wizardError
      = none) :=
  ⟨rfl, rfl⟩

/-- C1 amended: the submission handler decides success versus failure on
the HTTP `ok` flag alone, ignoring the body's `status` field: an ok
response always navigates to `/jobs/status/{job_id}` and leaves the error
state untouched, while a non-ok response never navigates and surfaces
`data.message || 'Failed to submit job'`. -/
theorem submit_branches_on_http_ok (s : WizardState) (r : HttpResponse) :
    (r.ok = true →
      (handleSubmitResolve s (.response r)).navigatedTo = some (statusUrl r.body.jobId) ∧
      (handleSubmitResolve s (.response r)).wizardError = s.wizardError) ∧
    (r.ok = false →
      (handleSubmitResolve s (.response r)).navigatedTo = s.navigatedTo ∧
      (handleSubmitResolve s (.response r)).wizardError
        = some (jsOrElse r.body.message "Failed to submit job")) := by
  constructor <;> intro h <;> simp [handleSubmitResolve, h]

/-- C1 witness: the amended theorem applied to the concrete HTTP-200
business-error response. -/
theorem submit_branches_on_http_ok_witness :
    businessErrorResponse.ok = true ∧
    (handleSubmitResolve reviewState (.response businessErrorResponse)).navigatedTo
      = some "/jobs/status/undefined" :=
  ⟨rfl, ((submit_branches_on_http_ok reviewState businessErrorResponse).1 rfl).1⟩

/-- C7: when an in-flight submission fails (transport failure or non-ok
response), the wizard keeps `step`, `jobType` and `formData` unchanged,
surfaces the failure's message, clears the in-flight flag, and the submit
button is re-enabled with its idle label. -/
theorem submission_failure_preserves_state (ref : Option (List CrosslinkEntry))
    (s : WizardState) (o : SubmitOutcome)
    (hin : s.isSubmitting = true) (hfail : o.isFailure = true) :
    ((applyEvent ref s (.submitResolve o)).1.currentStep = s.currentStep) ∧
    ((applyEvent ref s (.submitResolve o)).1.jobType = s.jobType) ∧
    ((applyEvent ref s (.submitResolve o)).1.formData = s.formData) ∧
    ((applyEvent ref s (.submitResolve o)).1.wizardError = some (failureMessage o)) ∧
    ((applyEvent ref s (.submitResolve o)).1.isSubmitting = false) ∧
    (submitButtonDisabled (applyEvent ref s (.submitResolve o)).1 = false) ∧
    (submitButtonLabel (applyEvent ref s (.submitResolve o)).1 = "Submit Job") ∧
    ((applyEvent ref s (.submitResolve o)).1.navigatedTo = s.navigatedTo) := by
  cases o with
  | transportError m =>
      simp [applyEvent, hin, handleSubmitResolve, failureMessage,
            submitButtonDisabled, submitButtonLabel]
  | response r =>
      have hok : r.ok = false := by
        simpa [SubmitOutcome.isFailure] using hfail
      simp [applyEvent, hin, handleSubmitResolve, failureMessage, hok,
            submitButtonDisabled, submitButtonLabel]

/-- C7 witness: the failure-preservation theorem applied to the Review
state with a concrete transport failure. -/
theorem submission_failure_preserves_state_witness :
    ((applyEvent none reviewState .submitClick).1.isSubmitting = true) ∧
    ((SubmitOutcome.transportError "network down").isFailure = true) ∧
    ((applyEvent none (applyEvent none reviewState .submitClick).1
        (.submitResolve (.transportError "network down"))).1.formData = reviewState.formData) ∧
    ((applyEvent none (applyEvent none reviewState .submitClick).1
        (.submitResolve (.transportError "network down"))).1.wizardError
      = some "network down") :=
  ⟨rfl, rfl,
    (submission_failure_preserves_state none (applyEvent none reviewState .submitClick).1
      (.transportError "network down") rfl rfl).2.2.1,
    (submission_failure_preserves_state none (applyEvent none reviewState .submitClick).1
      (.transportError "network down") rfl rfl).2.2.2.1⟩

/-- C8: clicking Submit twice while the first request is outstanding
issues exactly one network call — the single payload of the first click —
because the first click sets the in-flight flag, which disables the
button and switches its label to the in-flight text. -/
theorem double_click_single_submission (ref : Option (List CrosslinkEntry))
    (s : WizardState) (h3 : s.currentStep = 3) (hs : s.isSubmitting = false) :
    ((runEvents ref s [.submitClick, .submitClick]).2 = [submitPayload s]) ∧
    ((runEvents ref s [.submitClick, .submitClick]).2.length = 1) ∧
    (submitButtonDisabled (applyEvent ref s .submitClick).1 = true) ∧
    (submitButtonLabel (applyEvent ref s .submitClick).1 = "Submitting...") := by
  simp [runEvents, applyEvent, h3, hs, handleSubmitStart,
        submitButtonDisabled, submitButtonLabel]

/-- C8 witness: the double-click theorem applied to the concrete Review
state. -/
theorem double_click_single_submission_witness :
    (reviewState.currentStep = 3) ∧ (reviewState.isSubmitting = false) ∧
    ((runEvents none reviewState [.submitClick, .submitClick]).2
      = [submitPayload reviewState]) :=
  ⟨rfl, rfl, (double_click_single_submission none reviewState rfl rfl).1⟩

/-- Characterization of `validateSequence`: a chain passes exactly when
it is present, its length lies in `[950, 1150]`, and every character is
in the restricted alphabet. -/
theorem validateSequence_iff (os : Option String) :
    validateSequence os = true ↔
      ∃ s, os = some s ∧ 950 ≤ s.length ∧ s.length ≤ 1150 ∧
        ∀ ch ∈ s.data, ch ∈ aminoAlphabet := by
  cases os with
  | none => simp [validateSequence]
  | some s =>
      constructor
      · intro h
        rw [validateSequence] at h
        cases hb1 : s.isEmpty with
        | true => rw [hb1] at h; simp at h
        | false =>
            rw [hb1] at h
            simp only [Bool.false_eq_true, if_false] at h
            cases hb2 : (s.length < 950 || s.length > 1150) with
            | true => rw [hb2] at h; simp at h
            | false =>
                rw [hb2] at h
                simp only [Bool.false_eq_true, if_false] at h
                simp only [Bool.or_eq_false_iff, decide_eq_false_iff_not,
                  not_lt, gt_iff_lt] at hb2
                refine ⟨s, rfl, hb2.1, hb2.2, fun ch hch => ?_⟩
                have := List.all_eq_true.mp h ch hch
                simpa [List.contains, List.elem_iff] using this
      · rintro ⟨s', hs', hlo, hhi, hmem⟩
        obtain rfl : s = s' := Option.some.inj hs'
        rw [validateSequence]
        have hne : s.isEmpty = false := by
          rcases hb : s.isEmpty with _ | _
          · rfl
          · have he : s = "" := (String.isEmpty_iff s).mp hb
            rw [he] at hlo
            simp [String.length] at hlo
        rw [hne]
        have hcond : (s.length < 950 || s.length > 1150) = false := by
          simp only [Bool.or_eq_false_iff, decide_eq_false_iff_not, not_lt, gt_iff_lt]
          exact ⟨hlo, by omega⟩
        rw [hcond]
        simp only [Bool.false_eq_true, if_false]
        exact List.all_eq_true.mpr fun ch hch => by
          simpa [List.contains, List.elem_iff] using hmem ch hch

/-- C6: a custom chain passes `validateSequence` exactly when its length
lies in `[950, 1150]` and every character comes from the restricted
amino-acid alphabet; the chain textareas store their input uppercased;
and in custom mode any chain failing validation makes the panel's "Next"
validation return an error. -/
theorem custom_chain_rules (os : Option String) (p : Params) (c : ChainId) (v : String) :
    (validateSequence os = true ↔
      ∃ s, os = some s ∧ 950 ≤ s.length ∧ s.length ≤ 1150 ∧
        ∀ ch ∈ s.data, ch ∈ aminoAlphabet) ∧
    (getChain (chainTextareaChange c v p) c = some (jsToUpperCase v)) ∧
    (effInputMethod p = "custom" →
      (validateSequence p.chainA = false ∨ validateSequence p.chainB = false ∨
        validateSequence p.chainC = false) →
      ∃ m, moleculeHandleSubmit p = .err m) := by
  refine ⟨validateSequence_iff os, by cases c <;> rfl, ?_⟩
  intro hm hbad
  have hs : (effInputMethod p == "species") = false := by rw [hm]; rfl
  have hfirst : ∃ c', firstInvalidChain p = some c' := by
    unfold firstInvalidChain
    rcases hbad with h | h | h <;> split_ifs <;> simp_all
  obtain ⟨c', hc⟩ := hfirst
  exact ⟨chainErrorMsg c', by simp [moleculeHandleSubmit, hs, hc]⟩

set_option maxRecDepth 40000 in
/-- C6 witness: the chain-validation theorem applied to Scenario B's
parameters, whose 900-character chain A fails validation. -/
theorem custom_chain_rules_witness :
    (effInputMethod scenarioBParams = "custom") ∧
    (validateSequence scenarioBParams.chainA = false) ∧
    (∃ m, moleculeHandleSubmit scenarioBParams = .err m) ∧
    (getChain (chainTextareaChange ChainId.A "abc" scenarioBParams) ChainId.A = some "ABC") ∧
    (validateSequence (some chain1000) = true) :=
  ⟨rfl, rfl,
    (custom_chain_rules (some chain900) scenarioBParams ChainId.A "abc").2.2 rfl
      (Or.inl rfl),
    (custom_chain_rules (some chain900) scenarioBParams ChainId.A "abc").2.1,
    rfl⟩

/-! ### Invariant machinery for the wizard state machine -/

theorem handleSubmitResolve_currentStep (s : WizardState) (o : SubmitOutcome) :
    (handleSubmitResolve s o).currentStep = s.currentStep := by
  unfold handleSubmitResolve
  repeat' split
  all_goals rfl

theorem handleSubmitResolve_jobType (s : WizardState) (o : SubmitOutcome) :
    (handleSubmitResolve s o).jobType = s.jobType := by
  unfold handleSubmitResolve
  repeat' split
  all_goals rfl

theorem handleSubmitResolve_formData (s : WizardState) (o : SubmitOutcome) :
    (handleSubmitResolve s o).formData = s.formData := by
  unfold handleSubmitResolve
  repeat' split
  all_goals rfl

theorem enterStep_currentStep (s : WizardState) :
    (enterStep s).currentStep = s.currentStep := by
  unfold enterStep; split <;> rfl

theorem enterStep_jobType (s : WizardState) :
    (enterStep s).jobType = s.jobType := by
  unfold enterStep; split <;> rfl

theorem enterStep_formData (s : WizardState) :
    (enterStep s).formData = s.formData := by
  unfold enterStep; split <;> rfl

theorem applyEvent_step_le (ref : Option (List CrosslinkEntry)) (s : WizardState)
    (e : WizardEvent) (h1 : s.currentStep ≤ 3) :
    (applyEvent ref s e).1.currentStep ≤ 3 := by
  cases e <;>
    simp only [applyEvent, handleSubmitStart, updateParams] <;>
    (repeat' split) <;>
    simp_all [enterStep_currentStep, handleNext, handlePrevious,
      handleSubmitResolve_currentStep]

theorem applyEvent_jobType (ref : Option (List CrosslinkEntry)) (s : WizardState)
    (e : WizardEvent) (h2 : 1 ≤ s.currentStep → s.jobType.isSome = true) :
    1 ≤ (applyEvent ref s e).1.currentStep → (applyEvent ref s e).1.jobType.isSome = true := by
  cases e <;>
    simp only [applyEvent, handleSubmitStart, updateParams] <;>
    (repeat' split) <;>
    simp_all [enterStep_currentStep, enterStep_jobType, handleNext, handlePrevious,
      handleSubmitResolve_currentStep, handleSubmitResolve_jobType]

theorem applyEvent_jobName (ref : Option (List CrosslinkEntry)) (s : WizardState)
    (e : WizardEvent) (h3 : 2 ≤ s.currentStep → s.formData.jobName.isEmpty = false) :
    2 ≤ (applyEvent ref s e).1.currentStep →
      (applyEvent ref s e).1.formData.jobName.isEmpty = false := by
  cases e <;>
    simp only [applyEvent, handleSubmitStart, updateParams] <;>
    (repeat' split) <;>
    simp_all [enterStep_currentStep, enterStep_formData, handleNext, handlePrevious,
      handleSubmitResolve_currentStep, handleSubmitResolve_formData]

theorem applyEvent_inv (ref : Option (List CrosslinkEntry)) (s : WizardState)
    (e : WizardEvent) (h : WizardInv s) : WizardInv (applyEvent ref s e).1 :=
  ⟨applyEvent_step_le ref s e h.1, applyEvent_jobType ref s e h.2.1,
   applyEvent_jobName ref s e h.2.2⟩

theorem reachable_inv (ref : Option (List CrosslinkEntry)) {s : WizardState}
    (h : Reachable ref s) : WizardInv s := by
  induction h with
  | init => simp [WizardInv, initWizard]
  | step e _ ih => exact applyEvent_inv ref _ e ih

theorem moleculeInteractive_spec (s : WizardState) (h : moleculeInteractive s = true) :
    s.currentStep = 2 ∧ s.jobType = some JobType.molecule ∧ s.panelError = none := by
  simp only [moleculeInteractive, Bool.and_eq_true, beq_iff_eq,
    Option.isNone_iff_eq_none] at h
  exact ⟨h.1.1, h.1.2, h.2⟩

/-- C4: in every reachable wizard state the step index lies in `[0, 3]`,
every state past `SelectType` has a chosen job type, every state past
`BasicInfo` has a non-empty job name, and a transition leaving step 0
(resp. the basic-info step) can only happen with a chosen job type
(resp. a non-empty `jobName`). -/
theorem wizard_step_invariants (ref : Option (List CrosslinkEntry)) (s : WizardState)
    (e : WizardEvent) (h : Reachable ref s) :
    (s.currentStep ≤ 3) ∧
    (1 ≤ s.currentStep → s.jobType.isSome = true) ∧
    (2 ≤ s.currentStep → s.formData.jobName.isEmpty = false) ∧
    (s.currentStep = 0 → 1 ≤ (applyEvent ref s e).1.currentStep → s.jobType.isSome = true) ∧
    (s.currentStep = 1 → 2 ≤ (applyEvent ref s e).1.currentStep →
      s.formData.jobName.isEmpty = false) := by
  obtain ⟨h1, h2, h3⟩ := reachable_inv ref h
  refine ⟨h1, h2, h3, ?_, ?_⟩ <;>
  · intro hstep
    cases e <;>
      simp only [applyEvent, handleSubmitStart, updateParams] <;>
      (repeat' split) <;>
      simp_all [enterStep_currentStep, handleNext, handlePrevious,
        handleSubmitResolve_currentStep]

/-- C4 witness: the invariants instantiated at the initial wizard state. -/
theorem wizard_step_invariants_witness :
    (initWizard.currentStep ≤ 3) ∧
    (1 ≤ initWizard.currentStep → initWizard.jobType.isSome = true) :=
  ⟨(wizard_step_invariants none initWizard .next Reachable.init).1,
   (wizard_step_invariants none initWizard .next Reachable.init).2.1⟩

/-- C9: from any reachable state, after editing a field through a
rendered, enabled control, navigating backward (always permitted — the
step index just decrements) and then forward again returns to the same
step with the whole `formData`, the edited value included, unchanged. -/
theorem back_navigation_preserves_edits (ref : Option (List CrosslinkEntry))
    (s : WizardState) (e : WizardEvent)
    (hr : Reachable ref s) (he : editControlAt ref s e = true) :
    ((applyEvent ref (applyEvent ref s e).1 .previous).1.currentStep = s.currentStep - 1) ∧
    ((applyEvent ref (applyEvent ref s e).1 .previous).1.formData
        = (applyEvent ref s e).1.formData) ∧
    ((applyEvent ref (applyEvent ref (applyEvent ref s e).1 .previous).1 .next).1.currentStep
        = s.currentStep) ∧
    ((applyEvent ref (applyEvent ref (applyEvent ref s e).1 .previous).1 .next).1.formData
        = (applyEvent ref s e).1.formData) := by
  obtain ⟨h1, h2, h3⟩ := reachable_inv ref hr
  cases e with
  | setJobName v =>
      have hs1 : s.currentStep = 1 := by simpa [editControlAt] using he
      have hj : s.jobType.isSome = true := h2 (by omega)
      refine ⟨?_, ?_, ?_, ?_⟩ <;>
        simp [applyEvent, hs1, hj, handleNext, handlePrevious, enterStep]
  | setDescription v =>
      have hs1 : s.currentStep = 1 := by simpa [editControlAt] using he
      have hj : s.jobType.isSome = true := h2 (by omega)
      refine ⟨?_, ?_, ?_, ?_⟩ <;>
        simp [applyEvent, hs1, hj, handleNext, handlePrevious, enterStep]
  | setInputMethod v =>
      simp only [editControlAt, Bool.and_eq_true] at he
      obtain ⟨hmi, hx⟩ := he
      obtain ⟨hs2, hjm, hpe⟩ := moleculeInteractive_spec s hmi
      have hname : s.formData.jobName.isEmpty = false := h3 (by omega)
      refine ⟨?_, ?_, ?_, ?_⟩ <;>
        simp [applyEvent, moleculeInteractive, hs2, hjm, hpe, hx, hname,
          updateParams, handleNext, handlePrevious, enterStep]
  | setSpecies v =>
      simp only [editControlAt, Bool.and_eq_true] at he
      obtain ⟨hmi, hx⟩ := he
      obtain ⟨hs2, hjm, hpe⟩ := moleculeInteractive_spec s hmi
      have hname : s.formData.jobName.isEmpty = false := h3 (by omega)
      refine ⟨?_, ?_, ?_, ?_⟩ <;>
        simp [applyEvent, moleculeInteractive, hs2, hjm, hpe, hx, hname,
          updateParams, handleNext, handlePrevious, enterStep]
  | setChain c v =>
      simp only [editControlAt, Bool.and_eq_true] at he
      obtain ⟨hmi, hx⟩ := he
      obtain ⟨hs2, hjm, hpe⟩ := moleculeInteractive_spec s hmi
      have hname : s.formData.jobName.isEmpty = false := h3 (by omega)
      refine ⟨?_, ?_, ?_, ?_⟩ <;>
        simp [applyEvent, moleculeInteractive, hs2, hjm, hpe, hx, hname,
          updateParams, handleNext, handlePrevious, enterStep]
  | setEnableCrosslinks b =>
      simp only [editControlAt, Bool.and_eq_true] at he
      obtain ⟨⟨hmi, hx1⟩, hx2⟩ := he
      obtain ⟨hs2, hjm, hpe⟩ := moleculeInteractive_spec s hmi
      have hname : s.formData.jobName.isEmpty = false := h3 (by omega)
      refine ⟨?_, ?_, ?_, ?_⟩ <;>
        simp [applyEvent, moleculeInteractive, hs2, hjm, hpe, hx1, hx2, hname,
          updateParams, handleNext, handlePrevious, enterStep]
  | setCrosslink terminal ty pos =>
      simp only [editControlAt, Bool.and_eq_true] at he
      obtain ⟨⟨⟨⟨⟨hmi, hx1⟩, hx2⟩, hx3⟩, hx4⟩, hx5⟩ := he
      obtain ⟨hs2, hjm, hpe⟩ := moleculeInteractive_spec s hmi
      have hname : s.formData.jobName.isEmpty = false := h3 (by omega)
      refine ⟨?_, ?_, ?_, ?_⟩ <;>
        simp [applyEvent, moleculeInteractive, hs2, hjm, hpe, hx1, hx2, hx3, hx4, hx5,
          hname, updateParams, handleNext, handlePrevious, enterStep]
  | selectType t => simp [editControlAt] at he
  | next => simp [editControlAt] at he
  | previous => simp [editControlAt] at he
  | submitClick => simp [editControlAt] at he
  | submitResolve o => simp [editControlAt] at he

/-- C9 witness: the preservation theorem applied at the BasicInfo step of
a reachable molecule run, editing the job name. -/
theorem back_navigation_preserves_edits_witness :
    (editControlAt none wState1 (.setJobName "My job") = true) ∧
    ((applyEvent none (applyEvent none (applyEvent none wState1
        (.setJobName "My job")).1 .previous).1 .next).1.formData
      = (applyEvent none wState1 (.setJobName "My job")).1.formData) :=
  ⟨rfl,
    (back_navigation_preserves_edits none wState1 (.setJobName "My job")
      (Reachable.step .next (Reachable.step (.selectType JobType.molecule)
        Reachable.init)) rfl).2.2.2⟩

set_option maxRecDepth 40000 in
/-- C3: whenever a forward-transition attempt is possible, it succeeds
(the step index increments) exactly when the current step's validation
predicate holds on the current form data, and a failed attempt leaves
`step`, `jobType` and `formData` unchanged; in particular, on the
molecule Parameters step with a 900-character custom chain, "Next" keeps
the step and job type and surfaces the length-range error. -/
theorem forward_transition_iff (ref : Option (List CrosslinkEntry)) (s : WizardState)
    (h : nextAttemptable s = true) :
    ((applyEvent ref s .next).1.currentStep = s.currentStep + 1 ↔ stepValidation s = true) ∧
    (stepValidation s = false →
      (applyEvent ref s .next).1.currentStep = s.currentStep ∧
      (applyEvent ref s .next).1.jobType = s.jobType ∧
      (applyEvent ref s .next).1.formData = s.formData) ∧
    ((applyEvent ref scenarioBState .next).1.currentStep = scenarioBState.currentStep ∧
     (applyEvent ref scenarioBState .next).1.jobType = some JobType.molecule ∧
     (applyEvent ref scenarioBState .next).1.panelError = some (chainErrorMsg ChainId.A) ∧
     stepValidation scenarioBState = false) := by
  unfold nextAttemptable at h
  refine ⟨?_, ?_, rfl, rfl, rfl, rfl⟩
  · unfold applyEvent stepValidation
    (repeat' split) <;>
      simp_all [handleNext, enterStep_currentStep, PanelSubmit.isNext] <;>
      omega
  · intro hv
    unfold stepValidation at hv
    unfold applyEvent
    (repeat' split) <;>
      simp_all [handleNext, enterStep, PanelSubmit.isNext] <;>
      omega

set_option maxRecDepth 40000 in
/-- C3 witness: the forward-transition theorem applied to Scenario B's
concrete state, whose validation fails. -/
theorem forward_transition_iff_witness :
    (nextAttemptable scenarioBState = true) ∧
    (stepValidation scenarioBState = false) ∧
    ((applyEvent none scenarioBState .next).1.currentStep = scenarioBState.currentStep) :=
  ⟨rfl, rfl, ((forward_transition_iff none scenarioBState rfl).2.1 rfl).1⟩

end CbServer
